import Mathlib

/-
Verification of the IRIS VT enrichment module (iris_vt_mod/IrisVTInterface.py).

The module is embedded shallowly: the indicator (IOC) object, the VirusTotal
report results, the module configuration dictionary and the status envelopes
become Lean structures; the hook dispatcher and the two enrichment routines
become pure functions that take the indicator and the report and return the
updated indicator together with the status and the accumulated log lines.
The reputation client is a parameter (a pair of functions from the looked-up
value to report results), so theorems can quantify over every possible report.
-/

namespace IrisVT

/-- Status value returned by the internal handlers (InterfaceStatus.IIStatus).
In the source every internal handler returns I2Success; the failure variant
exists because the dispatcher checks is_failure on the returned status. -/
inductive IIStatus where
  | success
  | failure
  deriving DecidableEq, Repr

/-- The IOC object received from the host platform. Fields mirror the
attributes the module reads and writes: ioc_value, ioc_type.type_name
(flattened to ioc_type_name), ioc_description and ioc_tags. -/
structure Ioc where
  ioc_value : String
  ioc_type_name : String
  ioc_description : String
  ioc_tags : String
  deriving DecidableEq, Repr

/-- The results dictionary of a VirusTotal report, as consumed by the module:
response_code, verbose_msg, and the optional asn (IP reports) and whois
(domain reports) fields. An absent dictionary key is modelled as none. -/
structure VTResults where
  response_code : Int
  verbose_msg : String
  asn : Option String
  whois : Option String
  deriving DecidableEq, Repr

/-- The module configuration dictionary (self._dict_conf) restricted to the
two keys the enrichment routines read. dict.get returns an Option; the code
compares the value with the literal True, modelled as comparison with
some true. -/
structure Config where
  vt_ip_assign_asn_as_tag : Option Bool
  vt_domain_add_whois_as_desc : Option Bool
  deriving DecidableEq, Repr

/-- The reputation client (PublicApi or PrivateApi instance): a pair of
report-fetching functions keyed by the looked-up value. -/
structure VTClient where
  get_ip_report : String → VTResults
  get_domain_report : String → VTResults

/-- Status envelope returned to the host: InterfaceStatus.I2Success(data, logs)
or InterfaceStatus.I2Error(data, logs). -/
inductive Envelope where
  | success (data : Ioc) (logs : List String)
  | error (data : Ioc) (logs : List String)
  deriving DecidableEq, Repr

/-- Rendering of a Python value inside an f-string: None prints as the
four-character string None, a string prints as itself. -/
def pyOptStr : Option String → String
  | none => "None"
  | some s => s

/-- Containment of one character list in another as a contiguous run,
the semantics of the Python expression needle in haystack for strings. -/
def charsContain (needle : List Char) : List Char → Bool
  | [] => needle.isEmpty
  | c :: cs => needle.isPrefixOf (c :: cs) || charsContain needle cs

/-- Substring test on strings: the Python expression needle in haystack. -/
def containsSub (needle haystack : String) : Bool :=
  charsContain needle.data haystack.data

/-- Embedding of _handle_vt_ip, parameterised by the results dictionary of the
report the client returned for ioc.ioc_value. Returns the status, the
indicator after any mutation, and the log lines appended by the routine.
Mirrors the source exactly: when the tag option is enabled and the asn field
is None the routine logs the skip message but still falls through to the
append of the rendered asn value. -/
def handle_vt_ip (conf : Config) (results : VTResults) (ioc : Ioc)
    (logs : List String) : IIStatus × Ioc × List String :=
  let logs1 := logs ++ ["Getting IP report for " ++ ioc.ioc_value, "VT report fetched."]
  if results.response_code = 0 then
    (IIStatus.success, ioc,
     logs1 ++ ["Got invalid feedback from VT :: " ++ results.verbose_msg])
  else if conf.vt_ip_assign_asn_as_tag = some true then
    (IIStatus.success,
     { ioc with ioc_tags := ioc.ioc_tags ++ (",ASN:" ++ pyOptStr results.asn) },
     (logs1 ++ ["Assigning new ASN tag to IOC."]) ++
       (if results.asn = none then ["ASN was nul - skipping"] else []))
  else
    (IIStatus.success, ioc, logs1)

/-- Embedding of _handle_vt_domain, parameterised by the results dictionary of
the report the client returned for ioc.ioc_value. -/
def handle_vt_domain (conf : Config) (results : VTResults) (ioc : Ioc)
    (logs : List String) : IIStatus × Ioc × List String :=
  let logs1 := logs ++ ["Getting domain report for " ++ ioc.ioc_value, "VT report fetched."]
  if results.response_code = 0 then
    (IIStatus.success, ioc,
     logs1 ++ ["Got invalid feedback from VT :: " ++ results.verbose_msg])
  else if conf.vt_domain_add_whois_as_desc = some true then
    (IIStatus.success,
     { ioc with ioc_description :=
         ioc.ioc_description ++ ("\n\nWHOIS\n " ++ pyOptStr results.whois) },
     logs1)
  else
    (IIStatus.success, ioc, logs1)

/-- Embedding of _handle_ioc: classify the indicator by substring matching on
its declared type name and dispatch to the matching enrichment routine. -/
def handle_ioc (conf : Config) (vt : VTClient) (data : Ioc)
    (logs : List String) : IIStatus × Ioc × List String :=
  if containsSub "ip-" data.ioc_type_name then
    handle_vt_ip conf (vt.get_ip_report data.ioc_value) data logs
  else if containsSub "domain" data.ioc_type_name then
    handle_vt_domain conf (vt.get_domain_report data.ioc_value) data logs
  else
    (IIStatus.success, data,
     logs ++ ["IOC type " ++ data.ioc_type_name ++ " not handled by VT module. Skipping"])

/-- The tail of hooks_handler: wrap the inner handler result in an envelope
according to its status. -/
def finishHook (hook_name : String) : IIStatus × Ioc × List String → Envelope
  | (IIStatus.success, d, l) =>
      Envelope.success d (l ++ ["Successfully processed hook " ++ hook_name])
  | (IIStatus.failure, d, l) =>
      Envelope.error d (l ++ ["Encountered error processing hook " ++ hook_name])

/-- Embedding of hooks_handler: dispatch on the hook name, mutate the data for
the preload hook, delegate to handle_ioc for the three IOC hooks, and return
an error envelope immediately for an unsupported hook name. -/
def hooks_handler (conf : Config) (vt : VTClient) (hook_name : String)
    (data : Ioc) : Envelope :=
  let logs := ["Received " ++ hook_name]
  if hook_name = "on_postload_ioc_create" then
    finishHook hook_name (handle_ioc conf vt data logs)
  else if hook_name = "on_postload_ioc_update" then
    finishHook hook_name (handle_ioc conf vt data logs)
  else if hook_name = "on_preload_ioc_update" then
    finishHook hook_name (IIStatus.success, { data with ioc_value := "changed" }, logs)
  else if hook_name = "on_manual_trigger_ioc" then
    finishHook hook_name (handle_ioc conf vt data logs)
  else
    Envelope.error data (logs ++ ["Received unsupported hook " ++ hook_name])

/-- Result of one register_to_hook call: whether it failed, its message and
its data, the three things register_hooks reads from it. -/
structure RegStatus where
  failed : Bool
  message : String
  data : String
  deriving DecidableEq, Repr

/-- Log lines a status check inside register_hooks emits for a hook name:
the message and data of the checked status on failure, the success line
naming the hook otherwise. -/
def regLog (hook : String) (st : RegStatus) : List String :=
  if st.failed then [st.message, st.data] else ["Successfully registered " ++ hook ++ " hook"]

/-- Embedding of register_hooks, parameterised by the host registration
function. The first component lists the four registrations performed, each
with the status the host returned for it. The second component is the log:
faithful to the source, the status variable is assigned only by the first
call, so every one of the four checks reads the status of the first
registration. -/
def register_hooks (reg : String → RegStatus) :
    List (String × RegStatus) × List String :=
  let st1 := reg "on_postload_ioc_create"
  let st2 := reg "on_postload_ioc_update"
  let st3 := reg "on_preload_ioc_update"
  let st4 := reg "on_manual_trigger_ioc"
  ([("on_postload_ioc_create", st1), ("on_postload_ioc_update", st2),
    ("on_preload_ioc_update", st3), ("on_manual_trigger_ioc", st4)],
   regLog "on_postload_ioc_create" st1 ++
   regLog "on_postload_ioc_update" st1 ++
   regLog "on_preload_ioc_update" st1 ++
   regLog "on_manual_trigger_ioc" st1)

/-- Boolean test for a success envelope. -/
def isSuccessEnv : Envelope → Bool
  | Envelope.success _ _ => true
  | Envelope.error _ _ => false

/-- Every run of the IP enrichment routine returns the success status. -/
theorem handle_vt_ip_status (conf : Config) (results : VTResults) (ioc : Ioc)
    (logs : List String) : (handle_vt_ip conf results ioc logs).1 = IIStatus.success := by
  simp only [handle_vt_ip]
  split
  · rfl
  · split <;> rfl

/-- Every run of the domain enrichment routine returns the success status. -/
theorem handle_vt_domain_status (conf : Config) (results : VTResults) (ioc : Ioc)
    (logs : List String) : (handle_vt_domain conf results ioc logs).1 = IIStatus.success := by
  simp only [handle_vt_domain]
  split
  · rfl
  · split <;> rfl

/-- Every run of the classifier returns the success status. -/
theorem handle_ioc_status (conf : Config) (vt : VTClient) (data : Ioc)
    (logs : List String) : (handle_ioc conf vt data logs).1 = IIStatus.success := by
  simp only [handle_ioc]
  split
  · exact handle_vt_ip_status _ _ _ _
  · split
    · exact handle_vt_domain_status _ _ _ _
    · rfl

/-- Wrapping a success-status result always yields a success envelope. -/
theorem finishHook_isSuccess (h : String) (r : IIStatus × Ioc × List String)
    (hr : r.1 = IIStatus.success) : isSuccessEnv (finishHook h r) = true := by
  obtain ⟨s, d, l⟩ := r
  subst hr
  rfl

end IrisVT

open IrisVT

/-- C1 evaluation at the failing input: with tagging enabled, a non-zero
response code and an absent ASN, the routine logs the skip message but still
rewrites the tag string, appending the rendered None value, so the indicator
tag string does not stay unchanged as the claim states. -/
theorem C1_asn_none_still_appends :
    (handle_vt_ip ⟨some true, none⟩ ⟨1, "ok", none, none⟩
        ⟨"1.2.3.4", "ip-any", "", "tag1"⟩ []).2.1.ioc_tags = "tag1,ASN:None" ∧
    "ASN was nul - skipping" ∈
      (handle_vt_ip ⟨some true, none⟩ ⟨1, "ok", none, none⟩
        ⟨"1.2.3.4", "ip-any", "", "tag1"⟩ []).2.2 := by
  decide

/-- C2 evaluation at the failing input: when the first registration fails and
the three later ones succeed, all four registrations are still attempted, but
every one of the four log blocks repeats the message and data of the first
(failed) status, because the status variable is never reassigned; the log
line after a successful later attempt therefore reports the first attempt
instead of its own. -/
theorem C2_stale_status_logging :
    ((register_hooks (fun h => if h = "on_postload_ioc_create"
        then ⟨true, "first failed", "details"⟩ else ⟨false, "", ""⟩)).1.map
          Prod.fst =
      ["on_postload_ioc_create", "on_postload_ioc_update",
       "on_preload_ioc_update", "on_manual_trigger_ioc"]) ∧
    ((fun h => if h = "on_postload_ioc_create"
        then (⟨true, "first failed", "details"⟩ : RegStatus)
        else ⟨false, "", ""⟩) "on_postload_ioc_update").failed = false ∧
    ((register_hooks (fun h => if h = "on_postload_ioc_create"
        then ⟨true, "first failed", "details"⟩ else ⟨false, "", ""⟩)).2 =
      ["first failed", "details", "first failed", "details",
       "first failed", "details", "first failed", "details"]) := by
  decide

/-- C3 counterexample: the type name ip-domain contains the substring domain,
yet the classifier does not route it to the domain enrichment routine (the
ip- branch is checked first and wins). -/
theorem C3_counterexample :
    containsSub "domain" "ip-domain" = true ∧
    ¬ (handle_ioc ⟨some true, some true⟩
         ⟨fun _ => ⟨1, "", some "AS1", none⟩, fun _ => ⟨1, "", none, some "W"⟩⟩
         ⟨"x", "ip-domain", "desc", "tags"⟩ [] =
       handle_vt_domain ⟨some true, some true⟩ ⟨1, "", none, some "W"⟩
         ⟨"x", "ip-domain", "desc", "tags"⟩ []) := by
  decide

/-- C3 amended: classification is substring matching on the declared type
name with the ip- check taking precedence: every type name containing ip-
routes to the IP enrichment routine; every type name containing domain but
not ip- routes to the domain enrichment routine; every other type name
routes to a no-op success path that leaves the indicator unmodified. -/
theorem C3_classification (conf : Config) (vt : VTClient) (data : Ioc)
    (logs : List String) :
    (containsSub "ip-" data.ioc_type_name = true →
      handle_ioc conf vt data logs =
        handle_vt_ip conf (vt.get_ip_report data.ioc_value) data logs) ∧
    (containsSub "ip-" data.ioc_type_name = false →
      containsSub "domain" data.ioc_type_name = true →
      handle_ioc conf vt data logs =
        handle_vt_domain conf (vt.get_domain_report data.ioc_value) data logs) ∧
    (containsSub "ip-" data.ioc_type_name = false →
      containsSub "domain" data.ioc_type_name = false →
      handle_ioc conf vt data logs =
        (IIStatus.success, data,
         logs ++ ["IOC type " ++ data.ioc_type_name ++
           " not handled by VT module. Skipping"])) := by
  refine ⟨fun h1 => ?_, fun h1 h2 => ?_, fun h1 h2 => ?_⟩ <;>
    simp [handle_ioc, h1]
  · simp [h2]
  · simp [h2]

/-- C3 witness: the three branches of the amended classification, each
discharged at a concrete indicator type name. -/
theorem C3_classification_witness :
    (handle_ioc ⟨some true, some true⟩
        ⟨fun _ => ⟨1, "", some "AS1", none⟩, fun _ => ⟨1, "", none, some "W"⟩⟩
        ⟨"x", "ip-addr", "d", "t"⟩ [] =
      handle_vt_ip ⟨some true, some true⟩ ⟨1, "", some "AS1", none⟩
        ⟨"x", "ip-addr", "d", "t"⟩ []) ∧
    (handle_ioc ⟨some true, some true⟩
        ⟨fun _ => ⟨1, "", some "AS1", none⟩, fun _ => ⟨1, "", none, some "W"⟩⟩
        ⟨"x", "domain", "d", "t"⟩ [] =
      handle_vt_domain ⟨some true, some true⟩ ⟨1, "", none, some "W"⟩
        ⟨"x", "domain", "d", "t"⟩ []) ∧
    (handle_ioc ⟨some true, some true⟩
        ⟨fun _ => ⟨1, "", some "AS1", none⟩, fun _ => ⟨1, "", none, some "W"⟩⟩
        ⟨"x", "hash", "d", "t"⟩ [] =
      (IIStatus.success, (⟨"x", "hash", "d", "t"⟩ : Ioc),
        ["IOC type hash not handled by VT module. Skipping"])) :=
  ⟨(C3_classification ⟨some true, some true⟩
      ⟨fun _ => ⟨1, "", some "AS1", none⟩, fun _ => ⟨1, "", none, some "W"⟩⟩
      ⟨"x", "ip-addr", "d", "t"⟩ []).1 (by decide),
   (C3_classification ⟨some true, some true⟩
      ⟨fun _ => ⟨1, "", some "AS1", none⟩, fun _ => ⟨1, "", none, some "W"⟩⟩
      ⟨"x", "domain", "d", "t"⟩ []).2.1 (by decide) (by decide),
   (C3_classification ⟨some true, some true⟩
      ⟨fun _ => ⟨1, "", some "AS1", none⟩, fun _ => ⟨1, "", none, some "W"⟩⟩
      ⟨"x", "hash", "d", "t"⟩ []).2.2 (by decide) (by decide)⟩

/-- C4: for every indicator and every configuration, when the report has
response code 0 both enrichment routines return the success status and leave
the indicator object unchanged. -/
theorem C4_zero_response_no_mutation (conf : Config) (ipRes domRes : VTResults)
    (ioc : Ioc) (logs : List String)
    (h1 : ipRes.response_code = 0) (h2 : domRes.response_code = 0) :
    (handle_vt_ip conf ipRes ioc logs).1 = IIStatus.success ∧
    (handle_vt_ip conf ipRes ioc logs).2.1 = ioc ∧
    (handle_vt_domain conf domRes ioc logs).1 = IIStatus.success ∧
    (handle_vt_domain conf domRes ioc logs).2.1 = ioc := by
  simp [handle_vt_ip, handle_vt_domain, h1, h2]

/-- C4 witness: both routines evaluated on a concrete zero-response report
with both mutation options enabled leave the indicator untouched. -/
theorem C4_zero_response_witness :
    (handle_vt_ip ⟨some true, some true⟩ ⟨0, "m", some "AS1", some "W"⟩
       ⟨"v", "ip-a", "d", "t"⟩ []).1 = IIStatus.success ∧
    (handle_vt_ip ⟨some true, some true⟩ ⟨0, "m", some "AS1", some "W"⟩
       ⟨"v", "ip-a", "d", "t"⟩ []).2.1 = ⟨"v", "ip-a", "d", "t"⟩ ∧
    (handle_vt_domain ⟨some true, some true⟩ ⟨0, "m", some "AS1", some "W"⟩
       ⟨"v", "ip-a", "d", "t"⟩ []).1 = IIStatus.success ∧
    (handle_vt_domain ⟨some true, some true⟩ ⟨0, "m", some "AS1", some "W"⟩
       ⟨"v", "ip-a", "d", "t"⟩ []).2.1 = ⟨"v", "ip-a", "d", "t"⟩ :=
  C4_zero_response_no_mutation ⟨some true, some true⟩
    ⟨0, "m", some "AS1", some "W"⟩ ⟨0, "m", some "AS1", some "W"⟩
    ⟨"v", "ip-a", "d", "t"⟩ [] rfl rfl

/-- C5: with a non-zero response code, asn AS1234 and the tag option enabled,
the IP routine appends the tag ASN:AS1234 to the existing tag string. -/
theorem C5_asn_tag_appended (conf : Config) (res : VTResults) (ioc : Ioc)
    (logs : List String)
    (h1 : res.response_code ≠ 0) (h2 : res.asn = some "AS1234")
    (h3 : conf.vt_ip_assign_asn_as_tag = some true) :
    (handle_vt_ip conf res ioc logs).2.1.ioc_tags = ioc.ioc_tags ++ ",ASN:AS1234" := by
  simp [handle_vt_ip, h1, h2, h3, pyOptStr]

/-- C5 witness: the appended-tag equation evaluated on a concrete report and
indicator. -/
theorem C5_asn_tag_witness :
    (handle_vt_ip ⟨some true, none⟩ ⟨1, "m", some "AS1234", none⟩
       ⟨"1.2.3.4", "ip-a", "d", "tag1"⟩ []).2.1.ioc_tags = "tag1" ++ ",ASN:AS1234" :=
  C5_asn_tag_appended ⟨some true, none⟩ ⟨1, "m", some "AS1234", none⟩
    ⟨"1.2.3.4", "ip-a", "d", "tag1"⟩ [] (by decide) rfl rfl

/-- C6: with a non-zero response code, whois text registrar: example and the
whois option enabled, the domain routine appends the WHOIS section to the
existing description. -/
theorem C6_whois_appended (conf : Config) (res : VTResults) (ioc : Ioc)
    (logs : List String)
    (h1 : res.response_code ≠ 0) (h2 : res.whois = some "registrar: example")
    (h3 : conf.vt_domain_add_whois_as_desc = some true) :
    (handle_vt_domain conf res ioc logs).2.1.ioc_description =
      ioc.ioc_description ++ "\n\nWHOIS\n registrar: example" := by
  simp [handle_vt_domain, h1, h2, h3, pyOptStr]

/-- C6 witness: the appended-description equation evaluated on a concrete
report and indicator. -/
theorem C6_whois_witness :
    (handle_vt_domain ⟨none, some true⟩ ⟨1, "m", none, some "registrar: example"⟩
       ⟨"example.com", "domain", "desc", "t"⟩ []).2.1.ioc_description =
      "desc" ++ "\n\nWHOIS\n registrar: example" :=
  C6_whois_appended ⟨none, some true⟩ ⟨1, "m", none, some "registrar: example"⟩
    ⟨"example.com", "domain", "desc", "t"⟩ [] (by decide) rfl rfl

/-- C7: the preload hook always sets the value field of the data object to
the literal string changed and returns a success envelope; the result never
depends on the reputation client, so the client is not consulted. -/
theorem C7_preload_sets_changed (conf : Config) (vt vt2 : VTClient) (data : Ioc) :
    hooks_handler conf vt "on_preload_ioc_update" data =
      Envelope.success { data with ioc_value := "changed" }
        ["Received on_preload_ioc_update",
         "Successfully processed hook on_preload_ioc_update"] ∧
    hooks_handler conf vt "on_preload_ioc_update" data =
      hooks_handler conf vt2 "on_preload_ioc_update" data :=
  ⟨rfl, rfl⟩

/-- C8: a hook name outside the four registered names makes the dispatcher
return an error envelope whose data field is the unmutated input data
object. -/
theorem C8_unknown_hook_error (conf : Config) (vt : VTClient) (hook_name : String)
    (data : Ioc)
    (h1 : hook_name ≠ "on_postload_ioc_create")
    (h2 : hook_name ≠ "on_postload_ioc_update")
    (h3 : hook_name ≠ "on_preload_ioc_update")
    (h4 : hook_name ≠ "on_manual_trigger_ioc") :
    hooks_handler conf vt hook_name data =
      Envelope.error data
        ["Received " ++ hook_name, "Received unsupported hook " ++ hook_name] := by
  simp [hooks_handler, h1, h2, h3, h4]

/-- C8 witness: the unknown hook name unknown_event yields the error envelope
around the untouched input data. -/
theorem C8_unknown_hook_witness :
    hooks_handler ⟨none, none⟩
      ⟨fun _ => ⟨0, "", none, none⟩, fun _ => ⟨0, "", none, none⟩⟩
      "unknown_event" ⟨"v", "ip-a", "d", "t"⟩ =
      Envelope.error ⟨"v", "ip-a", "d", "t"⟩
        ["Received " ++ "unknown_event",
         "Received unsupported hook " ++ "unknown_event"] :=
  C8_unknown_hook_error ⟨none, none⟩
    ⟨fun _ => ⟨0, "", none, none⟩, fun _ => ⟨0, "", none, none⟩⟩
    "unknown_event" ⟨"v", "ip-a", "d", "t"⟩
    (by decide) (by decide) (by decide) (by decide)

/-- C9: tag enrichment is not idempotent: running the IP routine twice with
the tag option enabled on the same non-zero-response report with a present
ASN appends the ASN tag twice. -/
theorem C9_tagging_not_idempotent (conf : Config) (res : VTResults) (ioc : Ioc)
    (logs logs2 : List String) (v : String)
    (h1 : res.response_code ≠ 0) (h2 : res.asn = some v)
    (h3 : conf.vt_ip_assign_asn_as_tag = some true) :
    (handle_vt_ip conf res
        (handle_vt_ip conf res ioc logs).2.1 logs2).2.1.ioc_tags =
      ioc.ioc_tags ++ (",ASN:" ++ v) ++ (",ASN:" ++ v) := by
  simp [handle_vt_ip, h1, h2, h3, pyOptStr]

/-- C9 witness: running the routine twice on a concrete indicator yields the
doubly tagged string. -/
theorem C9_not_idempotent_witness :
    (handle_vt_ip ⟨some true, none⟩ ⟨1, "m", some "AS1234", none⟩
        (handle_vt_ip ⟨some true, none⟩ ⟨1, "m", some "AS1234", none⟩
          ⟨"1.2.3.4", "ip-a", "d", "tag1"⟩ []).2.1 []).2.1.ioc_tags =
      "tag1" ++ (",ASN:" ++ "AS1234") ++ (",ASN:" ++ "AS1234") :=
  C9_tagging_not_idempotent ⟨some true, none⟩ ⟨1, "m", some "AS1234", none⟩
    ⟨"1.2.3.4", "ip-a", "d", "tag1"⟩ [] [] "AS1234" (by decide) rfl rfl

/-- C10: in the exception-free embedding every run of the two enrichment
routines and of the classifier returns the success status, and the
dispatcher wraps each of the three delegating hook names in a success
envelope for every client and every indicator. -/
theorem C10_success_paths (conf : Config) (vt : VTClient) (res : VTResults)
    (data : Ioc) (logs : List String) :
    (handle_vt_ip conf res data logs).1 = IIStatus.success ∧
    (handle_vt_domain conf res data logs).1 = IIStatus.success ∧
    (handle_ioc conf vt data logs).1 = IIStatus.success ∧
    isSuccessEnv (hooks_handler conf vt "on_postload_ioc_create" data) = true ∧
    isSuccessEnv (hooks_handler conf vt "on_postload_ioc_update" data) = true ∧
    isSuccessEnv (hooks_handler conf vt "on_manual_trigger_ioc" data) = true := by
  refine ⟨handle_vt_ip_status conf res data logs,
          handle_vt_domain_status conf res data logs,
          handle_ioc_status conf vt data logs, ?_, ?_, ?_⟩
  · show isSuccessEnv (finishHook "on_postload_ioc_create"
      (handle_ioc conf vt data ["Received on_postload_ioc_create"])) = true
    exact finishHook_isSuccess _ _ (handle_ioc_status conf vt data _)
  · show isSuccessEnv (finishHook "on_postload_ioc_update"
      (handle_ioc conf vt data ["Received on_postload_ioc_update"])) = true
    exact finishHook_isSuccess _ _ (handle_ioc_status conf vt data _)
  · show isSuccessEnv (finishHook "on_manual_trigger_ioc"
      (handle_ioc conf vt data ["Received on_manual_trigger_ioc"])) = true
    exact finishHook_isSuccess _ _ (handle_ioc_status conf vt data _)
